import Mathlib

/-
Verification of the deaddrop_meta data contracts against their Python source
(deaddrop_meta/interface_lib.py and deaddrop_meta/agent_lib.py).

The embedding models:
  - CPython base64.b64decode / b64encode (binascii.a2b_base64 with
    strict_mode=False, i.e. the lenient decoder that skips characters
    outside the base64 alphabet), used by ServerMessagingData.validate_base64;
  - pydantic v2 field validation for the declared models (required fields,
    Literal choice, UUID parsing, the mode="before" validator);
  - pydantic v2 class building (check_decorator_fields_exist) and the JSON
    dump semantics relevant to the declared field_serializer;
  - agent_lib.AgentBase: abc abstract-property semantics, to_dict, and
    textwrap.dedent / str.strip as used by it.
-/

namespace DeaddropMeta

/-- The standard base64 alphabet, as used by binascii: index 0..63 to char. -/
def b64chr (n : Nat) : Char :=
  if n < 26 then Char.ofNat (65 + n)
  else if n < 52 then Char.ofNat (97 + (n - 26))
  else if n < 62 then Char.ofNat (48 + (n - 52))
  else if n = 62 then '+' else '/'

/-- Inverse table `table_a2b_base64`: char to 6-bit value, none for
characters outside the alphabet (which the lenient decoder skips). -/
def b64CharVal (c : Char) : Option Nat :=
  if 'A' ≤ c ∧ c ≤ 'Z' then Option.some (c.toNat - 65)
  else if 'a' ≤ c ∧ c ≤ 'z' then Option.some (c.toNat - 97 + 26)
  else if '0' ≤ c ∧ c ≤ '9' then Option.some (c.toNat - 48 + 52)
  else if c = '+' then Option.some 62
  else if c = '/' then Option.some 63
  else Option.none

/-- base64.b64encode on a byte string (binascii.b2a_base64 without the
trailing newline): three bytes become four alphabet characters, a trailing
group of one or two bytes is padded with `=`. -/
def b64encode : List Nat → List Char
  | [] => []
  | [a] => [b64chr (a / 4), b64chr (a % 4 * 16), '=', '=']
  | [a, b] => [b64chr (a / 4), b64chr (a % 4 * 16 + b / 16), b64chr (b % 16 * 4), '=']
  | a :: b :: c :: rest =>
      b64chr (a / 4) :: b64chr (a % 4 * 16 + b / 16) ::
      b64chr (b % 16 * 4 + c / 64) :: b64chr (c % 64) :: b64encode rest

/-- The loop of binascii.a2b_base64 with strict_mode=False (the form invoked
by base64.b64decode with validate left False, as validate_base64 does).
Arguments: remaining characters, quad position (0..3), leftchar accumulator,
pad count, emitted bytes (reversed). Characters outside the alphabet are
skipped; a pad completing a quad of at least two data characters ends the
decode successfully; a trailing incomplete quad is an error (binascii.Error,
surfaced from b64decode as an exception). -/
def a2bLoop : List Char → Nat → Nat → Nat → List Nat → Option (List Nat)
  | [], q, _, _, acc => if q = 0 then Option.some acc.reverse else Option.none
  | c :: rest, q, l, p, acc =>
    if c = '=' then
      if 2 ≤ q then
        if 4 ≤ q + (p + 1) then Option.some acc.reverse
        else a2bLoop rest q l (p + 1) acc
      else a2bLoop rest q l p acc
    else
      match b64CharVal c with
      | Option.none => a2bLoop rest q l p acc
      | Option.some v =>
        if q = 0 then a2bLoop rest 1 v 0 acc
        else if q = 1 then a2bLoop rest 2 (v % 16) 0 ((l * 4 + v / 16) :: acc)
        else if q = 2 then a2bLoop rest 3 (v % 4) 0 ((l * 16 + v / 4) :: acc)
        else a2bLoop rest 0 0 0 ((l * 64 + v) :: acc)

/-- base64.b64decode on a character list: b64decode first encodes a str
argument as ASCII (raising ValueError on non-ASCII characters), then runs
the lenient binascii loop. `none` models any raised exception. -/
def b64decodeChars (s : List Char) : Option (List Nat) :=
  if s.all (fun c => c.toNat < 128) then a2bLoop s 0 0 0 [] else Option.none

/-- base64.b64decode applied to a Python str. -/
def b64decodePy (s : String) : Option (List Nat) :=
  b64decodeChars s.data

/-- Python values that can be supplied for a field of the pydantic models in
interface_lib.py: None, a str, a bytes value (list of byte values), or a dict
(string keys mapping to further values). -/
inductive Value where
  | vnone : Value
  | str (s : String) : Value
  | bytes (b : List Nat) : Value
  | dict (d : List (String × Value)) : Value

/-- A pydantic ValidationError record: the offending field location and the
reason. pydantic collects one such record per failing field; construction
returns either a fully validated model or such an error, never a partial
model. -/
structure ValErr where
  loc : String
  msg : String
deriving DecidableEq

/-- Lookup of a key in a Python dict literal (first match). -/
def dlookup (d : List (String × Value)) (k : String) : Option Value :=
  (d.find? (fun p => p.1 = k)).map Prod.snd

/-- Hexadecimal digit test, upper or lower case. -/
def isHexDigit (c : Char) : Bool :=
  ('0' ≤ c ∧ c ≤ '9') ∨ ('a' ≤ c ∧ c ≤ 'f') ∨ ('A' ≤ c ∧ c ≤ 'F')

/-- Value of a hexadecimal digit. -/
def hexVal (c : Char) : Nat :=
  if c ≤ '9' then c.toNat - 48 else if c ≤ 'F' then c.toNat - 55 else c.toNat - 87

/-- Fold a list of hex digits into the 128-bit integer they denote. -/
def hexFold (l : List Char) : Nat :=
  l.foldl (fun a c => a * 16 + hexVal c) 0

/-- Parse the simple (32 hex characters, no dashes) UUID form. -/
def parseSimpleUUID (l : List Char) : Option Nat :=
  if l.length = 32 ∧ l.all isHexDigit then Option.some (hexFold l) else Option.none

/-- Split a character list on dashes. -/
def splitDash : List Char → List (List Char)
  | [] => [[]]
  | c :: rest =>
    let r := splitDash rest
    if c = '-' then [] :: r
    else
      match r with
      | [] => [[c]]
      | h :: t => (c :: h) :: t

/-- Parse the hyphenated 8-4-4-4-12 UUID form. -/
def parseHyphenatedUUID (l : List Char) : Option Nat :=
  match splitDash l with
  | [g1, g2, g3, g4, g5] =>
    if g1.length = 8 ∧ g2.length = 4 ∧ g3.length = 4 ∧ g4.length = 4 ∧ g5.length = 12
        ∧ (g1 ++ g2 ++ g3 ++ g4 ++ g5).all isHexDigit then
      Option.some (hexFold (g1 ++ g2 ++ g3 ++ g4 ++ g5))
    else Option.none
  | _ => Option.none

/-- UUID string parsing as performed by pydantic for a `uuid.UUID` annotated
field on a str input (pydantic-core delegates to the uuid crate parser):
the simple 32-hex form, the hyphenated form, the braced hyphenated form and
the urn:uuid: form are accepted; anything else is a uuid_parsing error. -/
def parseUUID (s : String) : Option Nat :=
  let l := s.data
  if l.length = 32 then parseSimpleUUID l
  else if l.length = 36 then parseHyphenatedUUID l
  else if l.length = 38 ∧ l.head? = Option.some (Char.ofNat 123)
      ∧ l.getLast? = Option.some (Char.ofNat 125) then
    parseHyphenatedUUID (l.drop 1).dropLast
  else if l.length = 45 ∧ l.take 9 = "urn:uuid:".data then
    parseHyphenatedUUID (l.drop 9)
  else Option.none

/-- The validated content of ServerMessagingData, as held after a successful
construction: action is one of the two literals, listen_for_id is a UUID
(represented by its 128-bit integer value), server_private_key is an
optional byte string, preferred_protocol an optional str. -/
structure ServerMessagingData where
  action : String
  listen_for_id : Nat
  server_private_key : Option (List Nat)
  preferred_protocol : Option String
deriving DecidableEq

/-- Keyword input to ServerMessagingData construction: for each declared
field, either absent (the key was not supplied) or a supplied Python value. -/
structure SMDInput where
  action : Option Value
  listen_for_id : Option Value
  server_private_key : Option Value
  preferred_protocol : Option Value

/-- Validation of `action : Union[Literal["send"], Literal["receive"]]`.
The field has no default, so an absent key is a missing-field error; a str
equal to one of the two literals passes; everything else fails. -/
def validateAction : Option Value → Except ValErr String
  | Option.none => Except.error ⟨"action", "Field required"⟩
  | Option.some (Value.str s) =>
    if s = "send" ∨ s = "receive" then Except.ok s
    else Except.error ⟨"action", "Input should be send or receive"⟩
  | Option.some _ => Except.error ⟨"action", "Input should be send or receive"⟩

/-- Validation of `listen_for_id : uuid.UUID` (required, no default): a str
input is parsed as a UUID and held as the UUID value; a non-parsing string
is a uuid_parsing ValidationError; non-str input is a uuid_type error. -/
def validateListenForId : Option Value → Except ValErr Nat
  | Option.none => Except.error ⟨"listen_for_id", "Field required"⟩
  | Option.some (Value.str s) =>
    match parseUUID s with
    | Option.some u => Except.ok u
    | Option.none =>
      Except.error ⟨"listen_for_id", "Input should be a valid UUID, invalid format"⟩
  | Option.some _ =>
    Except.error ⟨"listen_for_id", "UUID input should be a string, bytes or UUID object"⟩

/-- The mode="before" validator ServerMessagingData.validate_base64, applied
to the supplied value of server_private_key: None and bytes pass through
unchanged; any other value is handed to base64.b64decode, a raised exception
becoming a ValueError (hence a ValidationError on the field). A dict input
makes b64decode raise TypeError, also caught and re-raised as the same
ValueError. The resulting bytes-or-None then satisfies `Optional[bytes]`. -/
def validate_base64 : Value → Except ValErr (Option (List Nat))
  | Value.vnone => Except.ok Option.none
  | Value.bytes b => Except.ok (Option.some b)
  | Value.str s =>
    match b64decodePy s with
    | Option.some b => Except.ok (Option.some b)
    | Option.none =>
      Except.error ⟨"server_private_key", "Assumed b64decode of " ++ s ++ " failed."⟩
  | Value.dict _ =>
    Except.error ⟨"server_private_key", "Assumed b64decode of the input failed."⟩

/-- Validation of `server_private_key : Optional[bytes]`: in pydantic v2 an
Optional annotation without a default is still a required field, so an
absent key is a missing-field error; a present value goes through
validate_base64. -/
def validateServerPrivateKey : Option Value → Except ValErr (Option (List Nat))
  | Option.none => Except.error ⟨"server_private_key", "Field required"⟩
  | Option.some v => validate_base64 v

/-- ASCII decoding of a byte string (the fragment of lax str coercion from
bytes that the concrete inputs below exercise; pydantic decodes bytes as
UTF-8 in lax mode and rejects undecodable input). -/
def asciiDecode (b : List Nat) : Except Unit String :=
  if b.all (fun x => x < 128) then
    Except.ok (String.mk (b.map Char.ofNat))
  else Except.error ()

/-- Validation of `preferred_protocol : Optional[str]` (required in pydantic
v2, nullable): None and str pass; bytes are decoded in lax mode; a dict is a
type error. -/
def validatePreferredProtocol : Option Value → Except ValErr (Option String)
  | Option.none => Except.error ⟨"preferred_protocol", "Field required"⟩
  | Option.some Value.vnone => Except.ok Option.none
  | Option.some (Value.str s) => Except.ok (Option.some s)
  | Option.some (Value.bytes b) =>
    match asciiDecode b with
    | Except.ok s => Except.ok (Option.some s)
    | Except.error _ =>
      Except.error ⟨"preferred_protocol", "Input should be a valid string"⟩
  | Option.some (Value.dict _) =>
    Except.error ⟨"preferred_protocol", "Input should be a valid string"⟩

/-- Construction of a ServerMessagingData instance: every declared field is
validated; any failure aborts the whole construction with a ValidationError
and no model object is produced. (pydantic reports all failing fields in one
ValidationError; this embedding surfaces the first, which does not affect
whether construction fails.) -/
def constructSMD (inp : SMDInput) : Except ValErr ServerMessagingData := do
  let a ← validateAction inp.action
  let li ← validateListenForId inp.listen_for_id
  let spk ← validateServerPrivateKey inp.server_private_key
  let pp ← validatePreferredProtocol inp.preferred_protocol
  Except.ok ⟨a, li, spk, pp⟩

/-- The validated content of EndpointMessagingData: three required strings. -/
structure EndpointMessagingData where
  name : String
  hostname : String
  address : String
deriving DecidableEq

/-- Validation of a required plain `str` field of EndpointMessagingData. -/
def validateEndpointStr (fieldName : String) : Option Value → Except ValErr String
  | Option.none => Except.error ⟨fieldName, "Field required"⟩
  | Option.some (Value.str s) => Except.ok s
  | Option.some (Value.bytes b) =>
    match asciiDecode b with
    | Except.ok s => Except.ok s
    | Except.error _ => Except.error ⟨fieldName, "Input should be a valid string"⟩
  | Option.some _ => Except.error ⟨fieldName, "Input should be a valid string"⟩

/-- Construction of an EndpointMessagingData instance from a dict input
(extra keys are ignored, pydantic's default). -/
def constructEndpoint (d : List (String × Value)) : Except ValErr EndpointMessagingData := do
  let n ← validateEndpointStr "name" (dlookup d "name")
  let h ← validateEndpointStr "hostname" (dlookup d "hostname")
  let a ← validateEndpointStr "address" (dlookup d "address")
  Except.ok ⟨n, h, a⟩

/-- The validated content of MessagingObject: the two open mappings, the
optional protocol_state mapping, the endpoint data and the server directive. -/
structure MessagingObject where
  agent_config : List (String × Value)
  protocol_config : List (String × Value)
  protocol_state : Option (List (String × Value))
  model_data : EndpointMessagingData
  server_config : ServerMessagingData

/-- Keyword input to MessagingObject construction. -/
structure MOInput where
  agent_config : Option Value
  protocol_config : Option Value
  protocol_state : Option Value
  model_data : Option Value
  server_config : Option Value

/-- Validation of a required `dict[str, Any]` field: the mapping passes
through opaque and unmodified. -/
def validateDictField (fieldName : String) :
    Option Value → Except ValErr (List (String × Value))
  | Option.none => Except.error ⟨fieldName, "Field required"⟩
  | Option.some (Value.dict d) => Except.ok d
  | Option.some _ => Except.error ⟨fieldName, "Input should be a valid dictionary"⟩

/-- Validation of `protocol_state : Optional[dict[str, Any]]`: required in
pydantic v2 (no default), but None is accepted and held as None. -/
def validateProtocolState : Option Value → Except ValErr (Option (List (String × Value)))
  | Option.none => Except.error ⟨"protocol_state", "Field required"⟩
  | Option.some Value.vnone => Except.ok Option.none
  | Option.some (Value.dict d) => Except.ok (Option.some d)
  | Option.some _ => Except.error ⟨"protocol_state", "Input should be a valid dictionary"⟩

/-- Prefix a nested model error with the submodel field, as pydantic does in
the error location of a nested validation failure. -/
def withLoc (fieldName : String) {α : Type} :
    Except ValErr α → Except ValErr α
  | Except.error e => Except.error ⟨fieldName ++ "." ++ e.loc, e.msg⟩
  | Except.ok a => Except.ok a

/-- Build the keyword input of ServerMessagingData from a dict value. -/
def smdInputOfDict (d : List (String × Value)) : SMDInput :=
  ⟨dlookup d "action", dlookup d "listen_for_id",
   dlookup d "server_private_key", dlookup d "preferred_protocol"⟩

/-- Validation of `model_data : EndpointMessagingData` from a dict input. -/
def validateModelData : Option Value → Except ValErr EndpointMessagingData
  | Option.none => Except.error ⟨"model_data", "Field required"⟩
  | Option.some (Value.dict d) => withLoc "model_data" (constructEndpoint d)
  | Option.some _ =>
    Except.error ⟨"model_data", "Input should be a valid dictionary or instance"⟩

/-- Validation of `server_config : ServerMessagingData` from a dict input. -/
def validateServerConfig : Option Value → Except ValErr ServerMessagingData
  | Option.none => Except.error ⟨"server_config", "Field required"⟩
  | Option.some (Value.dict d) => withLoc "server_config" (constructSMD (smdInputOfDict d))
  | Option.some _ =>
    Except.error ⟨"server_config", "Input should be a valid dictionary or instance"⟩

/-- Construction of a MessagingObject: each declared field validated in
declaration order, any failure aborting the whole construction. -/
def constructMO (inp : MOInput) : Except ValErr MessagingObject := do
  let ac ← validateDictField "agent_config" inp.agent_config
  let pc ← validateDictField "protocol_config" inp.protocol_config
  let ps ← validateProtocolState inp.protocol_state
  let md ← validateModelData inp.model_data
  let sc ← validateServerConfig inp.server_config
  Except.ok ⟨ac, pc, ps, md, sc⟩

/-
pydantic class building. When the interpreter creates the
ServerMessagingData class, pydantic generates the validation/serialization
schema and first runs check_decorator_fields_exist over every
field_validator and field_serializer: a decorator whose field list names
neither "*" nor an existing field makes class creation fail with
PydanticUserError (code decorator-missing-field). The source registers
  @field_validator("server_private_key", mode="before")  and
  @field_serializer("", when_used="json-unless-none"),
so the serializer is checked against the field names of the model.
-/

/-- The declared field names of ServerMessagingData, in declaration order. -/
def smdFieldNames : List String :=
  ["action", "listen_for_id", "server_private_key", "preferred_protocol"]

/-- The field list of the validate_base64 decorator in the source. -/
def validateBase64Fields : List String := ["server_private_key"]

/-- The field list of the serialize_bytes decorator in the source: the
single name is the empty string. -/
def serializeBytesFields : List String := [""]

/-- check_decorator_fields_exist for one decorator: every named field must
be "*" or a declared field (check_fields is left at its default). -/
def decoratorFieldsOk (decFields fields : List String) : Bool :=
  decFields.all (fun f => f = "*" ∨ fields.contains f)

/-- Creating the ServerMessagingData class itself: pydantic accepts it only
if every decorator names existing fields, otherwise loading the module
fails with a PydanticUserError. -/
def buildServerMessagingDataClass : Except String Unit :=
  if decoratorFieldsOk validateBase64Fields smdFieldNames
      ∧ decoratorFieldsOk serializeBytesFields smdFieldNames then
    Except.ok ()
  else
    Except.error "PydanticUserError: decorators defined with incorrect fields, code decorator-missing-field"

/-- Whether the serialize_bytes field serializer is applied to a given field
when a model instance is dumped: pydantic applies a field serializer to
exactly the fields its decorator names (or all fields for "*"). -/
def serializeBytesAppliesTo (fieldName : String) : Bool :=
  serializeBytesFields.contains fieldName ∨ serializeBytesFields.contains "*"

/-
JSON dump semantics (model_dump_json with default arguments) for a
ServerMessagingData instance, should an instance exist: fields are emitted
in declaration order; a None value of a nullable field is emitted as null
(exclude_none defaults to False, and when_used="json-unless-none" only
skips the custom serializer for None values, it does not omit the field);
the serialize_bytes serializer registered under the field name "" matches
no field, so a bytes value falls back to pydantic's default JSON bytes
serialization ser_json_bytes="utf8", the UTF-8 text of the raw bytes (the
concrete payloads below are ASCII). The intended base64 text b64encode(v)
is what serialize_bytes would produce had it been registered on
server_private_key. -/

/-- JSON text of the server_private_key field under the code's actual
serializer registration. -/
def spkFieldJson : Option (List Nat) → List Char
  | Option.none => "\"server_private_key\":null".data
  | Option.some b =>
    if serializeBytesAppliesTo "server_private_key" then
      "\"server_private_key\":\"".data ++ b64encode b ++ "\"".data
    else
      "\"server_private_key\":\"".data ++ b.map Char.ofNat ++ "\"".data

/-- JSON text of the preferred_protocol field. -/
def ppFieldJson : Option String → List Char
  | Option.none => "\"preferred_protocol\":null".data
  | Option.some s => "\"preferred_protocol\":\"".data ++ s.data ++ "\"".data

/-- Lowercase hex digit of a 4-bit value. -/
def hexChr (n : Nat) : Char :=
  if n < 10 then Char.ofNat (48 + n) else Char.ofNat (87 + n)

/-- The canonical hyphenated string form of a UUID value, as pydantic emits
a uuid.UUID in JSON mode. -/
def uuidToChars (u : Nat) : List Char :=
  let digs := (List.range 32).map (fun i => hexChr (u / 16 ^ (31 - i) % 16))
  digs.take 8 ++ ['-'] ++ (digs.drop 8).take 4 ++ ['-'] ++ (digs.drop 12).take 4
    ++ ['-'] ++ (digs.drop 16).take 4 ++ ['-'] ++ digs.drop 20

/-- model_dump_json of a ServerMessagingData instance. -/
def dumpJsonSMD (m : ServerMessagingData) : List Char :=
  "\x7b\"action\":\"".data ++ m.action.data ++ "\",\"listen_for_id\":\"".data
    ++ uuidToChars m.listen_for_id ++ "\",".data ++ spkFieldJson m.server_private_key
    ++ ",".data ++ ppFieldJson m.preferred_protocol ++ "\x7d".data

/-- Substring test on character lists (decidable helper for the JSON
statements below). -/
def containsSub (hay pat : List Char) : Bool :=
  (List.range (hay.length + 1)).any (fun i => pat.isPrefixOf (hay.drop i))

/-
agent_lib.py. AgentBase is an abc.ABC whose eight capability attributes are
abstract properties. Defining a concrete subclass never fails, whatever it
leaves undeclared (CPython only computes the set of remaining abstract
names); instantiating it raises TypeError while any abstract name remains.
to_dict is a classmethod: it reads the attributes off the class, so an
undeclared attribute yields the abstract property object itself, not a
value. dedent(cls.description) raises TypeError when description is such a
property object, and cls.config_model.model_json_schema() raises
AttributeError when config_model is; every other undeclared attribute is
embedded in the returned dict as the property object.
-/

/-- Space or tab (the characters the dedent regexes treat as indentation). -/
def isSpaceTab (c : Char) : Bool := c = ' ' ∨ c = '\t'

/-- Split a character list on newlines (semantics of text.split with a
newline separator: the result always has one more part than separators). -/
def splitNl : List Char → List (List Char)
  | [] => [[]]
  | c :: rest =>
    let r := splitNl rest
    if c = '\n' then [] :: r
    else
      match r with
      | [] => [[c]]
      | h :: t => (c :: h) :: t

/-- Join lines with newlines (inverse of splitNl). -/
def joinNl : List (List Char) → List Char
  | [] => []
  | [l] => l
  | l :: rest => l ++ '\n' :: joinNl rest

/-- First step of textwrap.dedent: the _whitespace_only_re substitution
blanks every nonempty line consisting solely of spaces and tabs. -/
def blankWsLine (l : List Char) : List Char :=
  if l.isEmpty then l else if l.all isSpaceTab then [] else l

/-- The _leading_whitespace_re match of one line: its indentation, present
when some non-space-tab character follows. -/
def lineIndent (l : List Char) : Option (List Char) :=
  let ind := l.takeWhile isSpaceTab
  if ind.length = l.length then Option.none else Option.some ind

/-- Longest common prefix of two character lists (the margin-narrowing loop
of textwrap.dedent computes exactly this). -/
def lcp : List Char → List Char → List Char
  | [], _ => []
  | _, [] => []
  | a :: as1, b :: bs1 => if a = b then a :: lcp as1 bs1 else []

/-- The common margin of the blanked lines: the longest common prefix of the
indents of all lines holding a non-whitespace character. -/
def dedentMargin (lines : List (List Char)) : List Char :=
  match lines.filterMap lineIndent with
  | [] => []
  | h :: t => t.foldl lcp h

/-- textwrap.dedent: blank whitespace-only lines, compute the common margin
of the remaining lines, and strip it from the start of every line that
carries it (the re.sub of a nonempty margin; an empty margin is a no-op). -/
def pyDedent (s : String) : String :=
  let ls := (splitNl s.data).map blankWsLine
  let m := dedentMargin ls
  let ls2 :=
    if m.isEmpty then ls
    else ls.map (fun l => if m.isPrefixOf l then l.drop m.length else l)
  String.mk (joinNl ls2)

/-- Python whitespace as stripped by str.strip() on ASCII text. -/
def isPyWs (c : Char) : Bool :=
  c = ' ' ∨ c = '\t' ∨ c = '\n' ∨ c = '\x0d' ∨ c = '\x0b' ∨ c = '\x0c'

/-- str.strip(): remove leading and trailing whitespace. -/
def pyStrip (s : String) : String :=
  String.mk (((s.data.dropWhile isPyWs).reverse.dropWhile isPyWs).reverse)

/-- A value appearing in the document produced by AgentBase.to_dict: a
string, a list of strings (the str-enum members of the OS and protocol
lists serialize as their string values), the JSON schema document of the
declared config model (pydantic's model_json_schema, kept opaque and keyed
by the model it describes), or the abstract property object that class
attribute access returns for an undeclared attribute. -/
inductive DocValue where
  | str (s : String) : DocValue
  | strList (l : List String) : DocValue
  | schema (configModel : Nat) : DocValue
  | propertyObject : DocValue
deriving DecidableEq

/-- Errors raised while to_dict runs (no ContractViolation type exists in
the code; these are the interpreter's own exception types). -/
inductive PyError where
  | typeError (msg : String) : PyError
  | attributeError (msg : String) : PyError
deriving DecidableEq

/-- A concrete agent class declaration: each capability attribute is either
declared with a value or left undeclared (so the abstract property of
AgentBase remains). Config models are identified opaquely. -/
structure AgentDecl where
  name : Option String
  description : Option String
  version : Option String
  author : Option String
  source : Option String
  supported_operating_systems : Option (List String)
  supported_protocols : Option (List String)
  config_model : Option Nat

/-- Class attribute access for a string-valued capability attribute:
declared value, or the abstract property object. -/
def clsAttr : Option String → DocValue
  | Option.some s => DocValue.str s
  | Option.none => DocValue.propertyObject

/-- Class attribute access for a list-valued capability attribute. -/
def clsAttrList : Option (List String) → DocValue
  | Option.some l => DocValue.strList l
  | Option.none => DocValue.propertyObject

/-- The names of the abstract attributes a declaration leaves undeclared
(CPython's __abstractmethods__ of the subclass). -/
def undeclaredAttrs (a : AgentDecl) : List String :=
  (if a.name.isNone then ["name"] else [])
    ++ (if a.description.isNone then ["description"] else [])
    ++ (if a.version.isNone then ["version"] else [])
    ++ (if a.author.isNone then ["author"] else [])
    ++ (if a.source.isNone then ["source"] else [])
    ++ (if a.supported_operating_systems.isNone then ["supported_operating_systems"] else [])
    ++ (if a.supported_protocols.isNone then ["supported_protocols"] else [])
    ++ (if a.config_model.isNone then ["config_model"] else [])

/-- Defining the concrete subclass: always succeeds, whatever is missing
(abc records the abstract names, it does not reject the class). -/
def pyDefineClass (a : AgentDecl) : Except PyError AgentDecl :=
  Except.ok a

/-- Instantiating the concrete subclass: TypeError while abstract names
remain, as abc enforces at instantiation (and only there). -/
def pyInstantiate (a : AgentDecl) : Except PyError Unit :=
  if (undeclaredAttrs a).isEmpty then Except.ok ()
  else Except.error (PyError.typeError "Cannot instantiate abstract class with abstract methods")

/-- AgentBase.to_dict, evaluated as the Python dict literal evaluates: the
description entry computes dedent(cls.description).strip(), raising
TypeError when description is undeclared (dedent applies a regex to the
property object); the config entry calls model_json_schema() on the
config_model attribute, raising AttributeError when it is undeclared; all
other entries embed the class attribute as-is. -/
def pyToDict (a : AgentDecl) : Except PyError (List (String × DocValue)) := do
  let desc ← match a.description with
    | Option.some d => Except.ok (pyStrip (pyDedent d))
    | Option.none =>
      Except.error (PyError.typeError "expected string or bytes-like object")
  let cfg ← match a.config_model with
    | Option.some m => Except.ok (DocValue.schema m)
    | Option.none =>
      Except.error
        (PyError.attributeError "property object has no attribute model_json_schema")
  Except.ok
    [("name", clsAttr a.name),
     ("description", DocValue.str desc),
     ("version", clsAttr a.version),
     ("author", clsAttr a.author),
     ("source", clsAttr a.source),
     ("operating_systems", clsAttrList a.supported_operating_systems),
     ("protocols", clsAttrList a.supported_protocols),
     ("config", cfg)]

/-- Sample UUID string used by the concrete scenarios below. -/
def sampleUuidStr : String := "12345678-1234-5678-1234-567812345678"

/-- The 128-bit value of sampleUuidStr. -/
def sampleUuidVal : Nat := 0x12345678123456781234567812345678

/-- The byte string b"hello" of the example scenario in the spec. -/
def helloBytes : List Nat := [104, 101, 108, 108, 111]

/-- A concrete agent declaration that leaves the required attribute `name`
undeclared while declaring everything else. -/
def incompleteAgentDecl : AgentDecl :=
  ⟨Option.none, Option.some "An example.", Option.some "0.0.1", Option.some "au",
   Option.some "src", Option.some ["linux"], Option.some ["plaintext_local"],
   Option.some 0⟩

/-- A concrete agent declaration that leaves `description` undeclared. -/
def noDescAgentDecl : AgentDecl :=
  ⟨Option.some "agent", Option.none, Option.some "0.0.1", Option.some "au",
   Option.some "src", Option.some ["linux"], Option.some ["plaintext_local"],
   Option.some 0⟩

/-- A string is a base64 encoding exactly when some byte string encodes to
it (the sense of "valid base64" in the specification's statements). -/
def IsBase64Encoding (s : String) : Prop :=
  ∃ b, (∀ x ∈ b, x < 256) ∧ b64encode b = s.data

/-
Lemma and theorem section.
-/

theorem b64CharVal_b64chr : ∀ v, v < 64 → b64CharVal (b64chr v) = Option.some v := by
  decide

theorem b64chr_ne_pad : ∀ v, v < 64 → b64chr v ≠ '=' := by
  decide

theorem b64chr_ascii : ∀ v, v < 64 → (b64chr v).toNat < 128 := by
  decide

theorem a2b_step0 (v : Nat) (hv : v < 64) (rest : List Char) (l p : Nat) (acc : List Nat) :
    a2bLoop (b64chr v :: rest) 0 l p acc = a2bLoop rest 1 v 0 acc := by
  simp [a2bLoop, b64chr_ne_pad v hv, b64CharVal_b64chr v hv]

theorem a2b_step1 (v : Nat) (hv : v < 64) (rest : List Char) (l p : Nat) (acc : List Nat) :
    a2bLoop (b64chr v :: rest) 1 l p acc =
      a2bLoop rest 2 (v % 16) 0 ((l * 4 + v / 16) :: acc) := by
  simp [a2bLoop, b64chr_ne_pad v hv, b64CharVal_b64chr v hv]

theorem a2b_step2 (v : Nat) (hv : v < 64) (rest : List Char) (l p : Nat) (acc : List Nat) :
    a2bLoop (b64chr v :: rest) 2 l p acc =
      a2bLoop rest 3 (v % 4) 0 ((l * 16 + v / 4) :: acc) := by
  simp [a2bLoop, b64chr_ne_pad v hv, b64CharVal_b64chr v hv]

theorem a2b_step3 (v : Nat) (hv : v < 64) (rest : List Char) (l p : Nat) (acc : List Nat) :
    a2bLoop (b64chr v :: rest) 3 l p acc =
      a2bLoop rest 0 0 0 ((l * 64 + v) :: acc) := by
  simp [a2bLoop, b64chr_ne_pad v hv, b64CharVal_b64chr v hv]

theorem a2b_pad_cont (rest : List Char) (q l p : Nat) (acc : List Nat)
    (hq : 2 ≤ q) (hp : ¬ 4 ≤ q + (p + 1)) :
    a2bLoop ('=' :: rest) q l p acc = a2bLoop rest q l (p + 1) acc := by
  simp [a2bLoop, hq, hp]

theorem a2b_pad_done (rest : List Char) (q l p : Nat) (acc : List Nat)
    (hq : 2 ≤ q) (hp : 4 ≤ q + (p + 1)) :
    a2bLoop ('=' :: rest) q l p acc = Option.some acc.reverse := by
  simp [a2bLoop, hq, hp]

theorem a2b_encode_single (a : Nat) (acc : List Nat) (ha : a < 256) :
    a2bLoop (b64encode [a]) 0 0 0 acc = Option.some (acc.reverse ++ [a]) := by
  have h1 : a / 4 < 64 := by omega
  have h2 : a % 4 * 16 < 64 := by omega
  rw [show b64encode [a] = [b64chr (a / 4), b64chr (a % 4 * 16), '=', '='] from rfl]
  rw [a2b_step0 _ h1, a2b_step1 _ h2]
  rw [a2b_pad_cont _ 2 _ 0 _ (by omega) (by omega)]
  rw [a2b_pad_done _ 2 _ 1 _ (by omega) (by omega)]
  have he : a / 4 * 4 + a % 4 * 16 / 16 = a := by omega
  rw [he, List.reverse_cons]

theorem a2b_encode_pair (a b1 : Nat) (acc : List Nat)
    (ha : a < 256) (hb1 : b1 < 256) :
    a2bLoop (b64encode [a, b1]) 0 0 0 acc = Option.some (acc.reverse ++ [a, b1]) := by
  have h1 : a / 4 < 64 := by omega
  have h2 : a % 4 * 16 + b1 / 16 < 64 := by omega
  have h3 : b1 % 16 * 4 < 64 := by omega
  rw [show b64encode [a, b1] =
    [b64chr (a / 4), b64chr (a % 4 * 16 + b1 / 16), b64chr (b1 % 16 * 4), '='] from rfl]
  rw [a2b_step0 _ h1, a2b_step1 _ h2, a2b_step2 _ h3]
  rw [a2b_pad_done _ 3 _ 0 _ (by omega) (by omega)]
  have he1 : a / 4 * 4 + (a % 4 * 16 + b1 / 16) / 16 = a := by omega
  have he2 : (a % 4 * 16 + b1 / 16) % 16 * 16 + b1 % 16 * 4 / 4 = b1 := by omega
  rw [he1, he2]
  simp

theorem a2b_encode_triple (a b1 c : Nat) (rest acc : List Nat)
    (ha : a < 256) (hb1 : b1 < 256) (hc : c < 256) :
    a2bLoop (b64encode (a :: b1 :: c :: rest)) 0 0 0 acc =
      a2bLoop (b64encode rest) 0 0 0 (c :: b1 :: a :: acc) := by
  have h1 : a / 4 < 64 := by omega
  have h2 : a % 4 * 16 + b1 / 16 < 64 := by omega
  have h3 : b1 % 16 * 4 + c / 64 < 64 := by omega
  have h4 : c % 64 < 64 := by omega
  rw [show b64encode (a :: b1 :: c :: rest) =
    b64chr (a / 4) :: b64chr (a % 4 * 16 + b1 / 16) ::
    b64chr (b1 % 16 * 4 + c / 64) :: b64chr (c % 64) :: b64encode rest from rfl]
  rw [a2b_step0 _ h1, a2b_step1 _ h2, a2b_step2 _ h3, a2b_step3 _ h4]
  have he1 : a / 4 * 4 + (a % 4 * 16 + b1 / 16) / 16 = a := by omega
  have he2 : (a % 4 * 16 + b1 / 16) % 16 * 16 + (b1 % 16 * 4 + c / 64) / 4 = b1 := by
    omega
  have he3 : (b1 % 16 * 4 + c / 64) % 4 * 64 + c % 64 = c := by omega
  rw [he1, he2, he3]

theorem a2b_encode_aux :
    ∀ (n : Nat) (b : List Nat) (acc : List Nat), b.length ≤ n →
      (∀ x ∈ b, x < 256) →
      a2bLoop (b64encode b) 0 0 0 acc = Option.some (acc.reverse ++ b) := by
  intro n
  induction n with
  | zero =>
    intro b acc hb _
    match b with
    | [] => simp [b64encode, a2bLoop]
    | x :: t => simp at hb
  | succ n ih =>
    intro b acc hlen hval
    match b with
    | [] => simp [b64encode, a2bLoop]
    | [a] => exact a2b_encode_single a acc (hval a (by simp))
    | [a, b1] => exact a2b_encode_pair a b1 acc (hval a (by simp)) (hval b1 (by simp))
    | a :: b1 :: c :: rest =>
      rw [a2b_encode_triple a b1 c rest acc (hval a (by simp)) (hval b1 (by simp))
        (hval c (by simp))]
      rw [ih rest _ (by simp at hlen; omega) (fun x hx => hval x (by simp [hx]))]
      simp

theorem b64encode_ascii_single (a : Nat) (ha : a < 256) :
    (b64encode [a]).all (fun c => c.toNat < 128) = true := by
  have k1 := b64chr_ascii (a / 4) (by omega)
  have k2 := b64chr_ascii (a % 4 * 16) (by omega)
  simp [b64encode, k1, k2]

theorem b64encode_ascii_pair (a b1 : Nat) (ha : a < 256) (hb1 : b1 < 256) :
    (b64encode [a, b1]).all (fun c => c.toNat < 128) = true := by
  have k1 := b64chr_ascii (a / 4) (by omega)
  have k2 := b64chr_ascii (a % 4 * 16 + b1 / 16) (by omega)
  have k3 := b64chr_ascii (b1 % 16 * 4) (by omega)
  simp [b64encode, k1, k2, k3]

theorem b64encode_ascii :
    ∀ (n : Nat) (b : List Nat), b.length ≤ n → (∀ x ∈ b, x < 256) →
      (b64encode b).all (fun c => c.toNat < 128) = true := by
  intro n
  induction n with
  | zero =>
    intro b hb _
    match b with
    | [] => simp [b64encode]
    | x :: t => simp at hb
  | succ n ih =>
    intro b hlen hval
    match b with
    | [] => simp [b64encode]
    | [a] => exact b64encode_ascii_single a (hval a (by simp))
    | [a, b1] => exact b64encode_ascii_pair a b1 (hval a (by simp)) (hval b1 (by simp))
    | a :: b1 :: c :: rest =>
      have ha : a < 256 := hval a (by simp)
      have hb1 : b1 < 256 := hval b1 (by simp)
      have hc : c < 256 := hval c (by simp)
      have k1 := b64chr_ascii (a / 4) (by omega)
      have k2 := b64chr_ascii (a % 4 * 16 + b1 / 16) (by omega)
      have k3 := b64chr_ascii (b1 % 16 * 4 + c / 64) (by omega)
      have k4 := b64chr_ascii (c % 64) (by omega)
      have hrest := ih rest (by simp at hlen; omega) (fun x hx => hval x (by simp [hx]))
      simp [b64encode, k1, k2, k3, k4]
      simpa using hrest

/-- Round trip: lenient b64decode inverts b64encode on every byte string. -/
theorem b64_roundtrip (b : List Nat) (hval : ∀ x ∈ b, x < 256) :
    b64decodeChars (b64encode b) = Option.some b := by
  unfold b64decodeChars
  rw [b64encode_ascii b.length b (Nat.le_refl _) hval]
  simpa using a2b_encode_aux b.length b [] (Nat.le_refl _) hval

/-- No alphabet character is a question mark. -/
theorem b64chr_ne_qmark : ∀ v, v < 64 → b64chr v ≠ '?' := by
  decide

set_option maxRecDepth 8192

/-- Claim C1: the claim states that serializing a structure holding a binary
server_private_key value b emits the field as the base64 text of b and never
as raw bytes. The code registers serialize_bytes under the field name ""
(not server_private_key): pydantic rejects the ServerMessagingData class at
definition time with PydanticUserError (decorator-missing-field), so no JSON
serialization of the model exists; and the serializer lookup would apply
serialize_bytes to no field, so a dump under the declared decorators emits
the raw UTF-8 text of the bytes ("hello"), not the base64 text ("aGVsbG8=").
The serializer docstring states the base64 intent, so this is a code bug. -/
theorem c1_serialize_base64_code_bug :
    buildServerMessagingDataClass = Except.error
      "PydanticUserError: decorators defined with incorrect fields, code decorator-missing-field"
    ∧ serializeBytesAppliesTo "server_private_key" = false
    ∧ containsSub (dumpJsonSMD ⟨"send", sampleUuidVal, Option.some helloBytes, Option.none⟩)
        "\"server_private_key\":\"hello\"".data = true
    ∧ containsSub (dumpJsonSMD ⟨"send", sampleUuidVal, Option.some helloBytes, Option.none⟩)
        "aGVsbG8=".data = false := by
  refine ⟨rfl, rfl, by decide, by decide⟩

/-- Claim C2: dual-form input for server_private_key. Raw bytes pass through
construction unchanged; a str is base64-decoded (the spec example
"aGVsbG8=" yields b"hello", see the witness) and the decoded bytes are
held; if the decode raises, construction fails with a ValidationError
naming the field and embedding the malformed input in its message. -/
theorem c2_dual_form_normalization (act li pp : Option Value) (s : String) (b : List Nat)
    (a0 : String) (u0 : Nat) (p0 : Option String)
    (hact : validateAction act = Except.ok a0)
    (hli : validateListenForId li = Except.ok u0)
    (hpp : validatePreferredProtocol pp = Except.ok p0) :
    (constructSMD ⟨act, li, Option.some (Value.bytes b), pp⟩ =
        Except.ok ⟨a0, u0, Option.some b, p0⟩)
    ∧ (∀ bs, b64decodePy s = Option.some bs →
        constructSMD ⟨act, li, Option.some (Value.str s), pp⟩ =
          Except.ok ⟨a0, u0, Option.some bs, p0⟩)
    ∧ (b64decodePy s = Option.none →
        constructSMD ⟨act, li, Option.some (Value.str s), pp⟩ =
          Except.error ⟨"server_private_key", "Assumed b64decode of " ++ s ++ " failed."⟩) := by
  refine ⟨?_, ?_, ?_⟩
  · simp only [constructSMD, hact, hli, hpp, validateServerPrivateKey, validate_base64]
    rfl
  · intro bs hdec
    simp only [constructSMD, hact, hli, hpp, validateServerPrivateKey, validate_base64,
      hdec]
    rfl
  · intro hdec
    simp only [constructSMD, hact, hli, hpp, validateServerPrivateKey, validate_base64,
      hdec]
    rfl

/-- Witness for C2 at the spec example: the base64 string "aGVsbG8=" is
decoded to b"hello" and held as bytes. -/
theorem c2_dual_form_normalization_witness :
    constructSMD ⟨Option.some (Value.str "send"), Option.some (Value.str sampleUuidStr),
        Option.some (Value.str "aGVsbG8="), Option.some Value.vnone⟩ =
      Except.ok ⟨"send", sampleUuidVal, Option.some helloBytes, Option.none⟩ :=
  (c2_dual_form_normalization (Option.some (Value.str "send"))
      (Option.some (Value.str sampleUuidStr)) (Option.some Value.vnone) "aGVsbG8=" []
      "send" sampleUuidVal Option.none rfl rfl rfl).2.1 helloBytes rfl

/-- Claim C3: with all other fields valid, construction succeeds for action
exactly "send" or exactly "receive" and fails with a ValidationError for
any other supplied action value (including absence and non-str values). -/
theorem c3_action_closed_choice (li spk pp : Option Value) (u0 : Nat)
    (k0 : Option (List Nat)) (p0 : Option String)
    (hli : validateListenForId li = Except.ok u0)
    (hspk : validateServerPrivateKey spk = Except.ok k0)
    (hpp : validatePreferredProtocol pp = Except.ok p0) :
    (constructSMD ⟨Option.some (Value.str "send"), li, spk, pp⟩ =
        Except.ok ⟨"send", u0, k0, p0⟩)
    ∧ (constructSMD ⟨Option.some (Value.str "receive"), li, spk, pp⟩ =
        Except.ok ⟨"receive", u0, k0, p0⟩)
    ∧ (∀ av, av ≠ Option.some (Value.str "send") →
        av ≠ Option.some (Value.str "receive") →
        ∃ e, constructSMD ⟨av, li, spk, pp⟩ = Except.error e) := by
  have hs : validateAction (Option.some (Value.str "send")) = Except.ok "send" := rfl
  have hr : validateAction (Option.some (Value.str "receive")) = Except.ok "receive" := rfl
  refine ⟨?_, ?_, ?_⟩
  · simp only [constructSMD, hs, hli, hspk, hpp]
    rfl
  · simp only [constructSMD, hr, hli, hspk, hpp]
    rfl
  · intro av h1 h2
    match av with
    | Option.none => exact ⟨_, rfl⟩
    | Option.some Value.vnone => exact ⟨_, rfl⟩
    | Option.some (Value.bytes b) => exact ⟨_, rfl⟩
    | Option.some (Value.dict d) => exact ⟨_, rfl⟩
    | Option.some (Value.str s) =>
      have hs1 : s ≠ "send" := fun h => h1 (by rw [h])
      have hs2 : s ≠ "receive" := fun h => h2 (by rw [h])
      have hv : validateAction (Option.some (Value.str s)) =
          Except.error ⟨"action", "Input should be send or receive"⟩ := by
        simp [validateAction, hs1, hs2]
      exact ⟨_, by simp only [constructSMD, hv]; rfl⟩

/-- Witness for C3: "send" is accepted, "sendx" is rejected, at concrete
valid values of the other fields. -/
theorem c3_action_closed_choice_witness :
    (constructSMD ⟨Option.some (Value.str "send"), Option.some (Value.str sampleUuidStr),
        Option.some Value.vnone, Option.some Value.vnone⟩ =
      Except.ok ⟨"send", sampleUuidVal, Option.none, Option.none⟩)
    ∧ ∃ e, constructSMD ⟨Option.some (Value.str "sendx"),
        Option.some (Value.str sampleUuidStr), Option.some Value.vnone,
        Option.some Value.vnone⟩ = Except.error e :=
  ⟨(c3_action_closed_choice (Option.some (Value.str sampleUuidStr))
      (Option.some Value.vnone) (Option.some Value.vnone) sampleUuidVal
      Option.none Option.none rfl rfl rfl).1,
   (c3_action_closed_choice (Option.some (Value.str sampleUuidStr))
      (Option.some Value.vnone) (Option.some Value.vnone) sampleUuidVal
      Option.none Option.none rfl rfl rfl).2.2 _ (by simp) (by simp)⟩

/-- Claim C4 counterexample: "????" is not valid base64 (no byte string
encodes to it: every encoding consists of alphabet characters and padding),
yet constructing a ServerMessagingData with server_private_key = "????"
succeeds, holding b"" — the lenient b64decode discards the four non-alphabet
characters and decodes the empty rest. The claim that every non-base64
string fails with a ValidationError is therefore false on the code. -/
theorem c4_counterexample :
    ¬ IsBase64Encoding "????"
    ∧ constructSMD ⟨Option.some (Value.str "send"), Option.some (Value.str sampleUuidStr),
        Option.some (Value.str "????"), Option.some Value.vnone⟩ =
      Except.ok ⟨"send", sampleUuidVal, Option.some [], Option.none⟩ := by
  constructor
  · rintro ⟨b, hb, henc⟩
    match b, henc with
    | [], henc => exact absurd henc (by decide)
    | [a], henc =>
      have h4 : (b64encode [a]).get? 3 = Option.some '=' := rfl
      rw [henc] at h4
      exact absurd h4 (by decide)
    | [a, b1], henc =>
      have h4 : (b64encode [a, b1]).get? 3 = Option.some '=' := rfl
      rw [henc] at h4
      exact absurd h4 (by decide)
    | a :: b1 :: c :: rest, henc =>
      have ha : a < 256 := hb a (by simp)
      have h0 : (b64encode (a :: b1 :: c :: rest)).get? 0 =
          Option.some (b64chr (a / 4)) := rfl
      rw [henc] at h0
      have he : ("????".data).get? 0 = Option.some '?' := by decide
      rw [he] at h0
      exact b64chr_ne_qmark (a / 4) (by omega) (Option.some.inj h0).symm
  · rfl

/-- Claim C4 amended: construction with server_private_key = s fails with a
ValidationError naming the field (and returns nothing else) exactly for
those strings s that CPython's lenient base64 decoder rejects; strings such
as "????" that are not valid base64 but survive the lenient decode (which
ignores characters outside the alphabet) are accepted. This theorem proves
the failure direction; the counterexample shows the acceptance side. -/
theorem c4_amended (act li pp : Option Value) (a0 : String) (u0 : Nat) (p0 : Option String)
    (hact : validateAction act = Except.ok a0)
    (hli : validateListenForId li = Except.ok u0)
    (hpp : validatePreferredProtocol pp = Except.ok p0)
    (s : String) (hdec : b64decodePy s = Option.none) :
    constructSMD ⟨act, li, Option.some (Value.str s), pp⟩ =
      Except.error ⟨"server_private_key", "Assumed b64decode of " ++ s ++ " failed."⟩ := by
  simp only [constructSMD, hact, hli, hpp, validateServerPrivateKey, validate_base64,
    hdec]
  rfl

/-- Witness for the amended C4 at s = "abc" (three data characters cannot
end a base64 quad, so the decode raises and construction fails). -/
theorem c4_amended_witness :
    constructSMD ⟨Option.some (Value.str "send"), Option.some (Value.str sampleUuidStr),
        Option.some (Value.str "abc"), Option.some Value.vnone⟩ =
      Except.error ⟨"server_private_key", "Assumed b64decode of abc failed."⟩ :=
  c4_amended (Option.some (Value.str "send")) (Option.some (Value.str sampleUuidStr))
    (Option.some Value.vnone) "send" sampleUuidVal Option.none rfl rfl rfl "abc" rfl

/-- Claim C5 counterexample: the claim states that a None server_private_key
is omitted entirely from the JSON output, with neither a null nor an empty
string. Under the declared decorators (when_used="json-unless-none" only
skips the custom serializer for None; exclude_none defaults to False, and no
instance exists at all once pydantic rejects the class, see C1) the dump of
a directive constructed with server_private_key=None carries the field as
an explicit null. -/
theorem c5_counterexample :
    containsSub (dumpJsonSMD ⟨"send", sampleUuidVal, Option.none, Option.none⟩)
      "\"server_private_key\":null".data = true := by
  decide

/-- Claim C5 amended: for every directive holding server_private_key = None,
the JSON dump contains the field serialized as an explicit null (the field
is not omitted and is not an empty string). -/
theorem c5_amended (m : ServerMessagingData) (h : m.server_private_key = Option.none) :
    "\"server_private_key\":null".data <:+: dumpJsonSMD m := by
  refine ⟨"\x7b\"action\":\"".data ++ m.action.data ++ "\",\"listen_for_id\":\"".data
      ++ uuidToChars m.listen_for_id ++ "\",".data,
    ",".data ++ ppFieldJson m.preferred_protocol ++ "\x7d".data, ?_⟩
  simp [dumpJsonSMD, h, spkFieldJson, List.append_assoc]

/-- Witness for the amended C5 at a concrete directive. -/
theorem c5_amended_witness :
    "\"server_private_key\":null".data <:+:
      dumpJsonSMD ⟨"receive", sampleUuidVal, Option.none, Option.some "dddb_local"⟩ :=
  c5_amended ⟨"receive", sampleUuidVal, Option.none, Option.some "dddb_local"⟩ rfl

/-- Claim C6 counterexample: the claim states that construction succeeds
when server_private_key / preferred_protocol (ServerMessagingData) or
protocol_state (MessagingObject) are omitted from the input. In pydantic v2
an Optional annotation without a default is still required, so omitting any
of them fails with a missing-field ValidationError: here server_private_key
omitted (all supplied fields valid) and protocol_state omitted (all supplied
fields valid) both reject. -/
theorem c6_counterexample :
    constructSMD ⟨Option.some (Value.str "send"), Option.some (Value.str sampleUuidStr),
        Option.none, Option.some Value.vnone⟩ =
      Except.error ⟨"server_private_key", "Field required"⟩
    ∧ constructMO ⟨Option.some (Value.dict []), Option.some (Value.dict []), Option.none,
        Option.some (Value.dict [("name", Value.str "ep"), ("hostname", Value.str "h"),
          ("address", Value.str "10.0.0.1")]),
        Option.some (Value.dict [("action", Value.str "send"),
          ("listen_for_id", Value.str sampleUuidStr),
          ("server_private_key", Value.vnone), ("preferred_protocol", Value.vnone)])⟩ =
      Except.error ⟨"protocol_state", "Field required"⟩ := by
  exact ⟨rfl, rfl⟩

/-- Claim C6 amended: the three fields are nullable but required — they must
be present in the input; construction succeeds when they are supplied as
explicit None (held as absent) and fails with a missing-field
ValidationError when the key is omitted. -/
theorem c6_amended (act li : Option Value) (a0 : String) (u0 : Nat)
    (hact : validateAction act = Except.ok a0)
    (hli : validateListenForId li = Except.ok u0) :
    (constructSMD ⟨act, li, Option.some Value.vnone, Option.some Value.vnone⟩ =
        Except.ok ⟨a0, u0, Option.none, Option.none⟩)
    ∧ (∀ pp, constructSMD ⟨act, li, Option.none, pp⟩ =
        Except.error ⟨"server_private_key", "Field required"⟩)
    ∧ (constructSMD ⟨act, li, Option.some Value.vnone, Option.none⟩ =
        Except.error ⟨"preferred_protocol", "Field required"⟩)
    ∧ (∀ ac pc md sc, constructMO ⟨Option.some (Value.dict ac), Option.some (Value.dict pc),
          Option.none, md, sc⟩ = Except.error ⟨"protocol_state", "Field required"⟩)
    ∧ (∀ ac pc md sc md0 sc0, validateModelData md = Except.ok md0 →
        validateServerConfig sc = Except.ok sc0 →
        constructMO ⟨Option.some (Value.dict ac), Option.some (Value.dict pc),
          Option.some Value.vnone, md, sc⟩ =
          Except.ok ⟨ac, pc, Option.none, md0, sc0⟩) := by
  refine ⟨?_, ?_, ?_, ?_, ?_⟩
  · simp only [constructSMD, hact, hli]
    rfl
  · intro pp
    simp only [constructSMD, hact, hli]
    rfl
  · simp only [constructSMD, hact, hli]
    rfl
  · intro ac pc md sc
    rfl
  · intro ac pc md sc md0 sc0 hmd hsc
    simp only [constructMO, hmd, hsc, validateDictField, validateProtocolState]
    rfl

/-- Witness for the amended C6: explicit None accepted, omitted key
rejected, at concrete values. -/
theorem c6_amended_witness :
    (constructSMD ⟨Option.some (Value.str "send"), Option.some (Value.str sampleUuidStr),
        Option.some Value.vnone, Option.some Value.vnone⟩ =
      Except.ok ⟨"send", sampleUuidVal, Option.none, Option.none⟩)
    ∧ constructSMD ⟨Option.some (Value.str "send"), Option.some (Value.str sampleUuidStr),
        Option.none, Option.some Value.vnone⟩ =
      Except.error ⟨"server_private_key", "Field required"⟩ :=
  ⟨(c6_amended (Option.some (Value.str "send")) (Option.some (Value.str sampleUuidStr))
      "send" sampleUuidVal rfl rfl).1,
   (c6_amended (Option.some (Value.str "send")) (Option.some (Value.str sampleUuidStr))
      "send" sampleUuidVal rfl rfl).2.1 (Option.some Value.vnone)⟩

/-- Claim C7 counterexample: the claim states that a declaration leaving a
required capability attribute undeclared makes export fail with a
ContractViolation detected at load time, never at export time, and that
export never returns a partial document. For a declaration leaving `name`
undeclared, defining the class succeeds (abc records the abstract name, it
rejects nothing at load time) and to_dict returns a complete-looking
document embedding the abstract property object where the name string
should be — export succeeds and hands back a defective document. -/
theorem c7_counterexample :
    pyDefineClass incompleteAgentDecl = Except.ok incompleteAgentDecl
    ∧ pyToDict incompleteAgentDecl = Except.ok
        [("name", DocValue.propertyObject), ("description", DocValue.str "An example."),
         ("version", DocValue.str "0.0.1"), ("author", DocValue.str "au"),
         ("source", DocValue.str "src"), ("operating_systems", DocValue.strList ["linux"]),
         ("protocols", DocValue.strList ["plaintext_local"]),
         ("config", DocValue.schema 0)] := by
  exact ⟨rfl, rfl⟩

/-- Claim C7 amended: leaving required capability attributes undeclared is
not detected at class definition (load) time and never produces a
ContractViolation; abc enforces the contract only at instantiation, where a
TypeError is raised exactly when some attribute is undeclared. Export
(to_dict), a classmethod, performs no such check: it raises a TypeError at
export time when description is undeclared, and otherwise returns a document
(with abstract property placeholders standing in for any other undeclared
attribute). -/
theorem c7_amended (a : AgentDecl) :
    pyDefineClass a = Except.ok a
    ∧ (pyInstantiate a = Except.ok () ↔ undeclaredAttrs a = [])
    ∧ (a.description = Option.none →
        pyToDict a = Except.error (PyError.typeError "expected string or bytes-like object"))
    ∧ (∀ d m, a.description = Option.some d → a.config_model = Option.some m →
        ∃ doc, pyToDict a = Except.ok doc) := by
  refine ⟨rfl, ?_, ?_, ?_⟩
  · unfold pyInstantiate
    by_cases h : (undeclaredAttrs a).isEmpty
    · simp [h, List.isEmpty_iff.mp h]
    · simp [h]
      intro hcon
      exact h (by simp [hcon])
  · intro hd
    simp only [pyToDict, hd]
    rfl
  · intro d m hd hm
    simp only [pyToDict, hd, hm]
    exact ⟨_, rfl⟩

/-- Witness for the amended C7: a declaration without description neither
fails at load time nor yields a ContractViolation — export raises the
interpreter TypeError when it runs. -/
theorem c7_amended_witness :
    pyToDict noDescAgentDecl =
      Except.error (PyError.typeError "expected string or bytes-like object") :=
  (c7_amended noDescAgentDecl).2.2.1 rfl

/-- Claim C8: for every fully declared capability descriptor, to_dict
returns a document with exactly the keys name, description, version,
author, source, operating_systems, protocols, config in that order, where
description is the declared description run through textwrap.dedent (common
leading indentation removed) and str.strip (surrounding whitespace
trimmed), the two capability lists are the declared lists of string tags in
declaration order, and config is the JSON schema document of the declared
config model. -/
theorem c8_to_dict_shape (n d v au s : String) (os ps : List String) (cm : Nat) :
    pyToDict ⟨Option.some n, Option.some d, Option.some v, Option.some au, Option.some s,
        Option.some os, Option.some ps, Option.some cm⟩ =
      Except.ok
        [("name", DocValue.str n),
         ("description", DocValue.str (pyStrip (pyDedent d))),
         ("version", DocValue.str v),
         ("author", DocValue.str au),
         ("source", DocValue.str s),
         ("operating_systems", DocValue.strList os),
         ("protocols", DocValue.strList ps),
         ("config", DocValue.schema cm)] := rfl

/-- Claim C9: the round-trip half holds — lenient base64 decoding inverts
base64 encoding on every byte string, so constructing a secret field from
previously produced base64 text recovers the original bytes (second
conjunct, at the spec example). But the re-serialization half fails on the
code: the serialize_bytes serializer is registered under field name "" (see
C1), so the dump of a directive holding b"hello" does not contain the
base64 text "aGVsbG8=" that decoding started from — byte-identical
round-trip text is not reproduced. The serializer docstring shows the
intent, making this a code bug rather than a spec error. -/
theorem c9_roundtrip_vs_broken_serializer :
    (∀ b, (∀ x ∈ b, x < 256) → b64decodeChars (b64encode b) = Option.some b)
    ∧ validate_base64 (Value.str "aGVsbG8=") = Except.ok (Option.some helloBytes)
    ∧ containsSub (dumpJsonSMD ⟨"send", sampleUuidVal, Option.some helloBytes, Option.none⟩)
        "aGVsbG8=".data = false := by
  refine ⟨b64_roundtrip, rfl, by decide⟩

/-- Witness for C9 applying the round-trip component to b"hello". -/
theorem c9_roundtrip_vs_broken_serializer_witness :
    b64decodeChars (b64encode helloBytes) = Option.some helloBytes :=
  c9_roundtrip_vs_broken_serializer.1 helloBytes (by decide)

/-- Claim C10: listen_for_id is required (its omission is a missing-field
ValidationError) and a supplied string is accepted exactly when it parses
as a UUID; on success the model holds the parsed 128-bit UUID value, not
the raw string, and on failure construction rejects with a ValidationError
on the field. -/
theorem c10_listen_for_id_uuid (act spk pp : Option Value) (a0 : String)
    (k0 : Option (List Nat)) (p0 : Option String)
    (hact : validateAction act = Except.ok a0)
    (hspk : validateServerPrivateKey spk = Except.ok k0)
    (hpp : validatePreferredProtocol pp = Except.ok p0) :
    (constructSMD ⟨act, Option.none, spk, pp⟩ =
        Except.error ⟨"listen_for_id", "Field required"⟩)
    ∧ (∀ s u, parseUUID s = Option.some u →
        constructSMD ⟨act, Option.some (Value.str s), spk, pp⟩ =
          Except.ok ⟨a0, u, k0, p0⟩)
    ∧ (∀ s, parseUUID s = Option.none →
        constructSMD ⟨act, Option.some (Value.str s), spk, pp⟩ =
          Except.error ⟨"listen_for_id", "Input should be a valid UUID, invalid format"⟩) := by
  refine ⟨?_, ?_, ?_⟩
  · simp only [constructSMD, hact]
    rfl
  · intro s u hparse
    have hli : validateListenForId (Option.some (Value.str s)) = Except.ok u := by
      simp [validateListenForId, hparse]
    simp only [constructSMD, hact, hli, hspk, hpp]
    rfl
  · intro s hparse
    have hli : validateListenForId (Option.some (Value.str s)) =
        Except.error ⟨"listen_for_id", "Input should be a valid UUID, invalid format"⟩ := by
      simp [validateListenForId, hparse]
    simp only [constructSMD, hact, hli]
    rfl

/-- Witness for C10: the hyphenated sample UUID string is accepted and held
as its 128-bit value; the string "not-a-uuid" is rejected. -/
theorem c10_listen_for_id_uuid_witness :
    (constructSMD ⟨Option.some (Value.str "send"), Option.some (Value.str sampleUuidStr),
        Option.some Value.vnone, Option.some Value.vnone⟩ =
      Except.ok ⟨"send", sampleUuidVal, Option.none, Option.none⟩)
    ∧ constructSMD ⟨Option.some (Value.str "send"), Option.some (Value.str "not-a-uuid"),
        Option.some Value.vnone, Option.some Value.vnone⟩ =
      Except.error ⟨"listen_for_id", "Input should be a valid UUID, invalid format"⟩ :=
  ⟨(c10_listen_for_id_uuid (Option.some (Value.str "send")) (Option.some Value.vnone)
      (Option.some Value.vnone) "send" Option.none Option.none rfl rfl rfl).2.1
      sampleUuidStr sampleUuidVal rfl,
   (c10_listen_for_id_uuid (Option.some (Value.str "send")) (Option.some Value.vnone)
      (Option.some Value.vnone) "send" Option.none Option.none rfl rfl rfl).2.2
      "not-a-uuid" rfl⟩

end DeaddropMeta
